import Mathlib

/-
  Verification development for the sbpl_manipulation 3D occupancy/distance
  grid and its demo obstacle-file loader.

  Sources embedded:
  - src/sbpl_collision_checking/include/sbpl_collision_checking/occupancy_grid.h
    (class sbpl_arm_planner::OccupancyGrid; its inline member functions are
    embedded directly from the header).
  - src/sbpl_arm_planner_test/src/call_planner.cpp
    (getCollisionCube, getCollisionCubes, getCollisionObjects).

  The OccupancyGrid delegates storage, coordinate transforms and distance
  propagation to a distance_field::PropagationDistanceField object that is
  not part of this repository's sources; those delegated operations are
  modelled from the specification (each such definition carries a doc
  comment starting with "Modelled from the spec:").

  C++ doubles are embedded as rationals (exact arithmetic); C ints as Int;
  the C cast (unsigned char)(d) of a non-negative double is embedded as
  truncation toward zero followed by reduction modulo 2^8.
-/

/-- A grid cell index triple, the argument of the distance-field accessors. -/
abbrev Cell3 : Type := Int × Int × Int

/-- Model of distance_field::PropagationDistanceField, the backing voxel
field the OccupancyGrid wraps.  Modelled from the spec: the field owns the
dense occupancy set, the cached per-cell distances, the grid geometry
(cell counts per axis, world sizes, origin, resolution) and the maximum
tracked distance (the propagation radius). -/
structure VoxelField where
  num_x : Nat
  num_y : Nat
  num_z : Nat
  size_x : ℚ
  size_y : ℚ
  size_z : ℚ
  origin_x : ℚ
  origin_y : ℚ
  origin_z : ℚ
  resolution : ℚ
  max_dist : ℚ
  occupied : List Cell3
  dist : Cell3 → ℚ

namespace VoxelField

/-- Modelled from the spec: true iff each coordinate lies in
[0, dimension_axis) — the bounds test of the backing field's direct
storage accessors. -/
def inBoundsCells (vf : VoxelField) (x y z : Int) : Bool :=
  decide (0 ≤ x) && decide (x < (vf.num_x : Int)) &&
  decide (0 ≤ y) && decide (y < (vf.num_y : Int)) &&
  decide (0 ≤ z) && decide (z < (vf.num_z : Int))

/-- Modelled from the spec: PropagationDistanceField::getDistanceFromCell
is not in src/.  O(1) lookup of the cached distance; fails with an
OutOfBounds condition (here `none`) if the index is outside the grid. -/
def getDistanceFromCell (vf : VoxelField) (x y z : Int) : Option ℚ :=
  if vf.inBoundsCells x y z then some (vf.dist (x, y, z)) else none

/-- Modelled from the spec: O(1) occupancy lookup, with the same loud
OutOfBounds failure policy as the distance accessor. -/
def getOccupancy (vf : VoxelField) (x y z : Int) : Option Bool :=
  if vf.inBoundsCells x y z then some (decide ((x, y, z) ∈ vf.occupied)) else none

/-- Chessboard (Chebyshev) distance between two cells, in cells.  The
documented metric choice for the modelled propagation (the spec allows
Euclidean or an approximation with a documented choice). -/
def cellDist (a b : Cell3) : Nat :=
  max (max (a.1 - b.1).natAbs (a.2.1 - b.2.1).natAbs) (a.2.2 - b.2.2).natAbs

/-- Modelled from the spec: the distance `propagate()` computes for one
cell — the distance in world units to the nearest occupied cell, clamped
at the propagation radius. -/
def computedDist (vf : VoxelField) (c : Cell3) : ℚ :=
  vf.occupied.foldr (fun o acc => min (vf.resolution * (cellDist c o : ℚ)) acc) vf.max_dist

/-- Modelled from the spec: `propagate()` recomputes the cached distance of
every cell from the current occupancy set; occupancy and geometry are
unchanged. -/
def propagate (vf : VoxelField) : VoxelField :=
  { vf with dist := fun c => vf.computedDist c }

/-- Modelled from the spec: `reset()` clears all cells to unoccupied and
all distances to the propagation radius. -/
def reset (vf : VoxelField) : VoxelField :=
  { vf with occupied := [], dist := fun _ => vf.max_dist }

/-- Modelled from the spec: `gridToWorld` returns the world coordinate of
the cell's reference corner: origin + index * resolution on each axis. -/
def gridToWorldF (vf : VoxelField) (x y z : Int) : ℚ × ℚ × ℚ :=
  (vf.origin_x + (x : ℚ) * vf.resolution,
   vf.origin_y + (y : ℚ) * vf.resolution,
   vf.origin_z + (z : ℚ) * vf.resolution)

/-- Modelled from the spec: `worldToGrid` maps a world coordinate to the
cell index floor((w - origin) / resolution) on each axis, with no bounds
clamping. -/
def worldToGridF (vf : VoxelField) (wx wy wz : ℚ) : Cell3 :=
  (⌊(wx - vf.origin_x) / vf.resolution⌋,
   ⌊(wy - vf.origin_y) / vf.resolution⌋,
   ⌊(wz - vf.origin_z) / vf.resolution⌋)

end VoxelField

/-- Truncation of a rational toward zero, the rounding of a C
floating-to-integral cast. -/
def ratTrunc (q : ℚ) : Int :=
  if 0 ≤ q then ⌊q⌋ else -⌊-q⌋

/-- The C cast `(unsigned char)(q)` for a rational standing in for a
double: truncation toward zero, then reduction modulo 2^8 (the de facto
behavior of the conversion; negative inputs, which the distance field
never produces, are clamped to 0 by `Int.toNat` before the reduction). -/
def toUChar (q : ℚ) : Nat :=
  (ratTrunc q).toNat % 256

/-- Model of sbpl_arm_planner::OccupancyGrid (occupancy_grid.h, lines
133-140): a resolution copy, the propagation distance, the reference-frame
string and the wrapped distance field (the pointee of `grid_`). -/
structure OccupancyGrid where
  grid_resolution_ : ℚ
  prop_distance_ : ℚ
  reference_frame_ : String
  grid_ : VoxelField

namespace OccupancyGrid

/-- occupancy_grid.h lines 147-150: delegate gridToWorld to the field. -/
def gridToWorld (og : OccupancyGrid) (x y z : Int) : ℚ × ℚ × ℚ :=
  og.grid_.gridToWorldF x y z

/-- occupancy_grid.h lines 152-155: delegate worldToGrid to the field. -/
def worldToGrid (og : OccupancyGrid) (wx wy wz : ℚ) : Cell3 :=
  og.grid_.worldToGridF wx wy wz

/-- occupancy_grid.h lines 157-160: `return grid_->getDistanceFromCell(x,y,z);`. -/
def getDistance (og : OccupancyGrid) (x y z : Int) : Option ℚ :=
  og.grid_.getDistanceFromCell x y z

/-- occupancy_grid.h lines 162-165:
`return (unsigned char)(grid_->getDistanceFromCell(x,y,z) / grid_resolution_);`. -/
def getCell (og : OccupancyGrid) (x y z : Int) : Option Nat :=
  (og.grid_.getDistanceFromCell x y z).map (fun d => toUChar (d / og.grid_resolution_))

/-- occupancy_grid.h lines 167-170: the `getCell(int *xyz)` overload,
`return grid_->getDistanceFromCell(xyz[0],xyz[1],xyz[2]);`. -/
def getCellXyz (og : OccupancyGrid) (xyz : Cell3) : Option ℚ :=
  og.grid_.getDistanceFromCell xyz.1 xyz.2.1 xyz.2.2

/-- occupancy_grid.h lines 172-178: bounds test against
`grid_->getNumCells` on each axis. -/
def isInBounds (og : OccupancyGrid) (x y z : Int) : Bool :=
  decide (0 ≤ x) && decide (x < (og.grid_.num_x : Int)) &&
  decide (0 ≤ y) && decide (y < (og.grid_.num_y : Int)) &&
  decide (0 ≤ z) && decide (z < (og.grid_.num_z : Int))

/-- occupancy_grid.h lines 180-183: `return reference_frame_;`. -/
def getReferenceFrame (og : OccupancyGrid) : String :=
  og.reference_frame_

/-- occupancy_grid.h lines 185-188: `reference_frame_ = frame;`. -/
def setReferenceFrame (og : OccupancyGrid) (frame : String) : OccupancyGrid :=
  { og with reference_frame_ := frame }

/-- Modelled from the spec: `getGridSize` (declared in the header, defined
outside src/) returns the per-axis cell counts of the wrapped field. -/
def getGridSize (og : OccupancyGrid) : Nat × Nat × Nat :=
  (og.grid_.num_x, og.grid_.num_y, og.grid_.num_z)

/-- Modelled from the spec: `getWorldSize` (declared in the header, defined
outside src/) returns the world dimensions of the wrapped field in meters. -/
def getWorldSize (og : OccupancyGrid) : ℚ × ℚ × ℚ :=
  (og.grid_.size_x, og.grid_.size_y, og.grid_.size_z)

/-- Modelled from the spec: `getOrigin` (declared in the header, defined
outside src/) returns the world origin of the wrapped field. -/
def getOrigin (og : OccupancyGrid) : ℚ × ℚ × ℚ :=
  (og.grid_.origin_x, og.grid_.origin_y, og.grid_.origin_z)

/-- Modelled from the spec: `getResolution` (declared in the header,
defined outside src/) returns the grid resolution in meters. -/
def getResolution (og : OccupancyGrid) : ℚ :=
  og.grid_resolution_

end OccupancyGrid

/-- The public member functions of sbpl_arm_planner::OccupancyGrid
(occupancy_grid.h lines 54-131), one constructor per method (the two
`getCell` and `getGridSize` overloads listed separately). -/
inductive GridOp : Type
  | gridToWorld
  | worldToGrid
  | getCellUChar
  | getCellXyz
  | getDistance
  | isInBounds
  | getDistanceFieldPtr
  | getGridSizeRefs
  | getGridSizeArr
  | getWorldSize
  | getOrigin
  | getResolution
  | updateFromCollisionMap
  | addCollisionCuboid
  | addPointsToField
  | getVoxelsInBox
  | getReferenceFrame
  | setReferenceFrame
  | reset
deriving DecidableEq

/-- Whether the public operation's return value aliases the backing
distance-field store, read off the declared return types in
occupancy_grid.h: `getDistanceFieldPtr` returns
`distance_field::PropagationDistanceField*` — the member `grid_` itself
(lines 142-145) — while every other method returns void, double, bool,
unsigned char, std::string or std::vector values (or writes through
caller-supplied value out-parameters). -/
def returnsBackingRef : GridOp → Bool
  | GridOp.getDistanceFieldPtr => true
  | _ => false

/- ===== The demo obstacle-file loader (call_planner.cpp) ===== -/

/-- Whitespace for the purposes of `fscanf("%s", ...)` and of `atoi` /
`atof`. -/
def isSpaceChar (c : Char) : Bool :=
  c = ' ' || c = '\t' || c = '\n' || c = '\r'

/-- A decimal digit. -/
def isDigitChar (c : Char) : Bool :=
  decide ('0' ≤ c) && decide (c ≤ '9')

/-- Consume a maximal run of decimal digits, accumulating their value;
returns the value and the unconsumed rest. -/
def digitsVal : List Char → Nat → Nat × List Char
  | [], acc => (acc, [])
  | c :: cs, acc =>
    if isDigitChar c then digitsVal cs (10 * acc + (c.toNat - 48)) else (acc, c :: cs)

/-- Consume a maximal run of decimal digits after the decimal point,
accumulating `scale * digit` with the scale divided by ten at each step. -/
def fracVal : List Char → ℚ → ℚ → ℚ × List Char
  | [], _, acc => (acc, [])
  | c :: cs, scale, acc =>
    if isDigitChar c then fracVal cs (scale / 10) (acc + scale * ((c.toNat - 48 : Nat) : ℚ))
    else (acc, c :: cs)

/-- Consume an optional leading sign; returns the sign and the rest. -/
def signVal : List Char → Int × List Char
  | '-' :: cs => (-1, cs)
  | '+' :: cs => (1, cs)
  | cs => (1, cs)

/-- C `atoi`: skip whitespace, optional sign, value of the maximal leading
digit run (0 when there is none; later characters are ignored). -/
def atoi (s : String) : Int :=
  let cs := s.data.dropWhile isSpaceChar
  let p := signVal cs
  let d := digitsVal p.2 0
  p.1 * (d.1 : Int)

/-- C `atof` on the decimal forms the loader's tokens can take: skip
whitespace, optional sign, integer digits, optional fractional part,
optional decimal exponent; 0 when no digits lead (hexadecimal, infinity
and NaN spellings are not modelled). -/
def atof (s : String) : ℚ :=
  let cs := s.data.dropWhile isSpaceChar
  let p := signVal cs
  let ip := digitsVal p.2 0
  let fp :=
    match ip.2 with
    | '.' :: rest => fracVal rest (1 / 10) 0
    | other => ((0 : ℚ), other)
  let ev :=
    match fp.2 with
    | c :: rest =>
      if c = 'e' || c = 'E' then
        let es := signVal rest
        let en := digitsVal es.2 0
        es.1 * (en.1 : Int)
      else 0
    | [] => (0 : Int)
  (p.1 : ℚ) * ((ip.1 : ℚ) + fp.1) * (10 : ℚ) ^ ev

/-- A C stdio stream opened for reading: the unread characters and the
end-of-file indicator. -/
structure CFile where
  content : List Char
  eofFlag : Bool

/-- A stream over the full contents of a file. -/
def mkCFile (s : String) : CFile :=
  ⟨s.data, false⟩

/-- `fscanf(f, "%s", buf)`: skip whitespace; at end of input set the
stream's end-of-file indicator, leave the buffer unchanged and return EOF
(here -1); otherwise read the maximal non-whitespace token into the buffer
and return 1.  The end-of-file indicator is also set when the token is
terminated by the end of input rather than by whitespace, as in C. -/
def fscanfStr (f : CFile) (buf : String) : CFile × String × Int :=
  let rest := f.content.dropWhile isSpaceChar
  match rest with
  | [] => (⟨[], true⟩, buf, -1)
  | c :: cs =>
    let tok := (c :: cs).takeWhile (fun ch => !isSpaceChar ch)
    let rest2 := (c :: cs).dropWhile (fun ch => !isSpaceChar ch)
    (⟨rest2, rest2.isEmpty⟩, String.mk tok, 1)

/-- The fields of arm_navigation_msgs::CollisionObject that
call_planner.cpp's getCollisionCube sets from its inputs: the object id,
the header frame, the box pose position and the box dimensions (the
operation is always ADD and the orientation always identity, so they are
not carried). -/
structure CollisionObject where
  id : String
  frame_id : String
  px : ℚ
  py : ℚ
  pz : ℚ
  dimx : ℚ
  dimy : ℚ
  dimz : ℚ
deriving DecidableEq

/-- call_planner.cpp lines 89-107: build one ADD box collision object from
a pose position, a 3-vector of dimensions, a frame and an id. -/
def getCollisionCube (px py pz : ℚ) (dims : List ℚ) (frame_id : String) (id : String) :
    CollisionObject :=
  { id := id, frame_id := frame_id, px := px, py := py, pz := pz,
    dimx := dims.getD 0 0, dimy := dims.getD 1 0, dimz := dims.getD 2 0 }

/-- call_planner.cpp lines 109-137: if the id list and the object list
differ in length, return the empty list; otherwise build one cube per
record from its first three entries (position) and next three entries
(dimensions). -/
def getCollisionCubes (objects : List (List ℚ)) (object_ids : List String)
    (frame_id : String) : List CollisionObject :=
  if object_ids.length ≠ objects.length then []
  else
    (objects.zip object_ids).map fun p =>
      getCollisionCube (p.1.getD 0 0) (p.1.getD 1 0) (p.1.getD 2 0)
        [p.1.getD 3 0, p.1.getD 4 0, p.1.getD 5 0] frame_id p.2

/-- call_planner.cpp lines 176-182, the inner loop over the six numeric
fields of one obstacle record: read a token; if the stream has not hit end
of file and the buffer is non-empty, store `atof` of the buffer into the
record at that position, else leave the zero-initialized entry unchanged. -/
def readFields : List Nat → CFile → String → List ℚ → CFile × String × List ℚ
  | [], f, s, r => (f, s, r)
  | j :: js, f, s, r =>
    let t := fscanfStr f s
    let r1 := if !t.1.eofFlag && t.2.1.length != 0 then r.set j (atof t.2.1) else r
    readFields js t.1 t.2.1 r1

/-- call_planner.cpp lines 169-183, the outer loop over the declared
records: read the id token (pushed onto the id list even when the read
failed and the buffer holds its previous contents), then the six numeric
fields into a record pre-sized to six zeros. -/
def readRecords : Nat → CFile → String → List String → List (List ℚ) →
    List String × List (List ℚ)
  | 0, _, _, ids, objs => (ids, objs)
  | Nat.succ n, f, s, ids, objs =>
    let t := fscanfStr f s
    let u := readFields [0, 1, 2, 3, 4, 5] t.1 t.2.1 (List.replicate 6 0)
    readRecords n u.1 u.2.1 (ids ++ [t.2.1]) (objs ++ [u.2.2])

/-- call_planner.cpp lines 139-186: the obstacle-file loader.  `none` as
input models a file `fopen` could not open (the function returns the empty
object list, lines 152-156).  `sTemp0` is the initial contents of the
uninitialized token buffer `sTemp`.  The first token gives the declared
count via `atoi`; a negative count makes `objects.resize(num_obs)` convert
the count to a huge size_t and throw, terminating the process, modelled as
a `none` result.  Otherwise the declared number of records is read and
handed to getCollisionCubes. -/
def getCollisionObjects (file : Option CFile) (sTemp0 : String) (frame_id : String) :
    Option (List CollisionObject) :=
  match file with
  | none => some []
  | some fCfg =>
    let t := fscanfStr fCfg sTemp0
    let num_obs : Int := atoi t.2.1
    if num_obs < 0 then none
    else
      let u := readRecords num_obs.toNat t.1 t.2.1 [] []
      some (getCollisionCubes u.2 u.1 frame_id)

/-- The declared obstacle count of a stream: `atoi` of its first token
(read into the buffer `sTemp0`, which is returned unchanged when the
stream is empty). -/
def declaredCount (f : CFile) (sTemp0 : String) : Int :=
  atoi (fscanfStr f sTemp0).2.1

/- ===== Concrete states used by witnesses and counterexamples ===== -/

/-- A freshly reset 2×1×1-cell field with resolution 1 m and propagation
radius 300 m: every cell's cached distance is the radius, 300 m. -/
def vf300 : VoxelField :=
  VoxelField.reset
    { num_x := 2, num_y := 1, num_z := 1,
      size_x := 2, size_y := 1, size_z := 1,
      origin_x := 0, origin_y := 0, origin_z := 0,
      resolution := 1, max_dist := 300,
      occupied := [], dist := fun _ => 0 }

/-- An OccupancyGrid over `vf300`. -/
def og300 : OccupancyGrid :=
  { grid_resolution_ := 1, prop_distance_ := 300, reference_frame_ := "map",
    grid_ := vf300 }

/-- A 2×1×1-cell field with resolution 1 m, radius 2 m and one occupied
cell, before propagation. -/
def vfObs : VoxelField :=
  { num_x := 2, num_y := 1, num_z := 1,
    size_x := 2, size_y := 1, size_z := 1,
    origin_x := 0, origin_y := 0, origin_z := 0,
    resolution := 1, max_dist := 2,
    occupied := [(0, 0, 0)], dist := fun _ => 0 }

/-- An obstacle file declaring two records whose first record has six
unreadable numeric fields and whose second is well formed. -/
def badFile : CFile :=
  mkCFile "2 obj1 a b c d e f obj2 1 2 3 4.5 5 6e1\n"

/- ===== Theorems ===== -/

/-- C5: for every integer triple (x, y, z), `isInBounds` returns true if
and only if each coordinate lies in [0, dimension_axis) for its axis (so
on each axis the index dimension_axis - 1 is in bounds and dimension_axis
is out of bounds). -/
theorem isInBounds_iff_axis_ranges (og : OccupancyGrid) (x y z : Int) :
    og.isInBounds x y z = true ↔
      0 ≤ x ∧ x < (og.grid_.num_x : Int) ∧
      0 ≤ y ∧ y < (og.grid_.num_y : Int) ∧
      0 ≤ z ∧ z < (og.grid_.num_z : Int) := by
  simp [OccupancyGrid.isInBounds, and_assoc]

/-- C9: `setReferenceFrame` stores exactly the given string, observable
through `getReferenceFrame`, and changes no other observable: distance,
quantized distance, occupancy, bounds, grid size, world size, origin and
resolution queries are unchanged. -/
theorem setReferenceFrame_changes_only_frame (og : OccupancyGrid) (f : String) :
    (og.setReferenceFrame f).getReferenceFrame = f ∧
    (∀ x y z, (og.setReferenceFrame f).getDistance x y z = og.getDistance x y z) ∧
    (∀ x y z, (og.setReferenceFrame f).getCell x y z = og.getCell x y z) ∧
    (∀ c, (og.setReferenceFrame f).getCellXyz c = og.getCellXyz c) ∧
    (∀ x y z, (og.setReferenceFrame f).grid_.getOccupancy x y z = og.grid_.getOccupancy x y z) ∧
    (∀ x y z, (og.setReferenceFrame f).isInBounds x y z = og.isInBounds x y z) ∧
    (og.setReferenceFrame f).getGridSize = og.getGridSize ∧
    (og.setReferenceFrame f).getWorldSize = og.getWorldSize ∧
    (og.setReferenceFrame f).getOrigin = og.getOrigin ∧
    (og.setReferenceFrame f).getResolution = og.getResolution :=
  ⟨rfl, fun _ _ _ => rfl, fun _ _ _ => rfl, fun _ => rfl, fun _ _ _ => rfl,
   fun _ _ _ => rfl, rfl, rfl, rfl, rfl⟩

/-- C3: for every index with some coordinate outside [0, dimension_axis),
`getDistance` signals OutOfBounds (returns `none` in this embedding)
rather than silently returning a sentinel distance. -/
theorem getDistance_out_of_bounds_fails (og : OccupancyGrid) (x y z : Int)
    (h : og.isInBounds x y z = false) : og.getDistance x y z = none := by
  have h' : og.grid_.inBoundsCells x y z = false := h
  simp [OccupancyGrid.getDistance, VoxelField.getDistanceFromCell, h']

/-- C3 witness: index 5 on the x axis of the 2×1×1 grid is out of bounds
and the distance query fails there. -/
theorem getDistance_out_of_bounds_fails_witness :
    og300.isInBounds 5 0 0 = false ∧ og300.getDistance 5 0 0 = none :=
  ⟨by decide, getDistance_out_of_bounds_fails og300 5 0 0 (by decide)⟩

/-- C7 counterexample: the public operation `getDistanceFieldPtr` returns
the raw pointer `grid_` to the backing distance field, so the claim that
no public operation hands out a reference to the backing store is false. -/
theorem getDistanceFieldPtr_returns_backing_ref :
    returnsBackingRef GridOp.getDistanceFieldPtr = true := rfl

/-- C7 amended: every public operation of the grid other than
`getDistanceFieldPtr` returns only by-value results; `getDistanceFieldPtr`
is the one operation that hands out an aliasing pointer to the backing
distance field. -/
theorem only_getDistanceFieldPtr_returns_backing_ref (op : GridOp)
    (h : op ≠ GridOp.getDistanceFieldPtr) : returnsBackingRef op = false := by
  cases op <;> first | rfl | exact absurd rfl h

/-- C7 amended witness: `getDistance` is not `getDistanceFieldPtr` and
returns no reference to the backing store. -/
theorem only_getDistanceFieldPtr_returns_backing_ref_witness :
    GridOp.getDistance ≠ GridOp.getDistanceFieldPtr ∧
    returnsBackingRef GridOp.getDistance = false :=
  ⟨by decide, only_getDistanceFieldPtr_returns_backing_ref GridOp.getDistance (by decide)⟩

/-- C10: a file that cannot be opened makes the loader return the empty
collision-object list without an error, and whenever the id list and the
object list differ in length getCollisionCubes returns the empty list. -/
theorem loader_unopenable_or_mismatch_empty :
    (∀ sTemp0 frame_id, getCollisionObjects none sTemp0 frame_id = some []) ∧
    (∀ objects object_ids frame_id, object_ids.length ≠ objects.length →
      getCollisionCubes objects object_ids frame_id = []) :=
  ⟨fun _ _ => rfl, fun objects object_ids frame_id h => by
    simp [getCollisionCubes, h]⟩

/-- C2: converting a cell index to world coordinates and back returns the
same cell index, for every valid cell of a grid with positive resolution. -/
theorem worldToGrid_gridToWorld_roundtrip (og : OccupancyGrid) (x y z : Int)
    (hres : 0 < og.grid_.resolution) (_hin : og.isInBounds x y z = true) :
    og.worldToGrid (og.gridToWorld x y z).1 (og.gridToWorld x y z).2.1
      (og.gridToWorld x y z).2.2 = (x, y, z) := by
  have hne : og.grid_.resolution ≠ 0 := ne_of_gt hres
  simp [OccupancyGrid.worldToGrid, OccupancyGrid.gridToWorld, VoxelField.worldToGridF,
    VoxelField.gridToWorldF, add_sub_cancel_left, mul_div_cancel_right₀, hne]

/-- C2 witness: the round trip at cell (1, 0, 0) of the 2×1×1 grid with
resolution 1 m. -/
theorem worldToGrid_gridToWorld_roundtrip_witness :
    0 < og300.grid_.resolution ∧ og300.isInBounds 1 0 0 = true ∧
    og300.worldToGrid (og300.gridToWorld 1 0 0).1 (og300.gridToWorld 1 0 0).2.1
      (og300.gridToWorld 1 0 0).2.2 = (1, 0, 0) :=
  ⟨by norm_num [og300, vf300, VoxelField.reset], by decide,
   worldToGrid_gridToWorld_roundtrip og300 1 0 0
     (by norm_num [og300, vf300, VoxelField.reset]) (by decide)⟩

/-- Helper: when the distance lookup succeeds, `getCell` applies the
unsigned-char cast to distance divided by resolution. -/
theorem getCell_eq_toUChar (og : OccupancyGrid) (x y z : Int) (d : ℚ)
    (hd : og.getDistance x y z = some d) :
    og.getCell x y z = some (toUChar (d / og.grid_resolution_)) := by
  have hd' : og.grid_.getDistanceFromCell x y z = some d := hd
  simp [OccupancyGrid.getCell, hd']

/-- Helper: on non-negative inputs the unsigned-char cast is floor
followed by reduction modulo 256. -/
theorem toUChar_of_nonneg (q : ℚ) (hq : 0 ≤ q) : toUChar q = (⌊q⌋).toNat % 256 := by
  simp [toUChar, ratTrunc, hq]

/-- C4 counterexample: in the freshly reset grid with resolution 1 m and
propagation radius 300 m, the cell distance is 300 m, the claimed value
floor(getDistance / resolution) is 300, but `getCell` returns 44 =
300 mod 256 because of the unsigned-char cast. -/
theorem getCell_is_not_plain_floor :
    og300.getCell 0 0 0 = some 44 ∧
    (og300.getDistance 0 0 0).map (fun d => (⌊d / og300.grid_resolution_⌋).toNat) =
      some 300 ∧
    (44 : Nat) ≠ 300 := by
  refine ⟨?_, ?_, by decide⟩
  · norm_num [og300, vf300, VoxelField.reset, OccupancyGrid.getCell,
      VoxelField.getDistanceFromCell, VoxelField.inBoundsCells, toUChar, ratTrunc]
    all_goals omega
  · norm_num [og300, vf300, VoxelField.reset, OccupancyGrid.getDistance,
      VoxelField.getDistanceFromCell, VoxelField.inBoundsCells]
    all_goals omega

/-- C4 amended: for every cell whose distance lookup succeeds with a
non-negative quotient, `getCell` returns floor(getDistance / resolution)
reduced modulo 256 (the unsigned-char truncation); it equals the plain
floor exactly when that floor is below 256. -/
theorem getCell_floor_mod_256 (og : OccupancyGrid) (x y z : Int) (d : ℚ)
    (hd : og.getDistance x y z = some d) (hq : 0 ≤ d / og.grid_resolution_) :
    og.getCell x y z = some ((⌊d / og.grid_resolution_⌋).toNat % 256) := by
  rw [getCell_eq_toUChar og x y z d hd, toUChar_of_nonneg _ hq]

/-- C4 amended witness: the reset 300 m-radius grid at cell (0,0,0). -/
theorem getCell_floor_mod_256_witness :
    og300.getDistance 0 0 0 = some 300 ∧ 0 ≤ (300 : ℚ) / og300.grid_resolution_ ∧
    og300.getCell 0 0 0 = some ((⌊(300 : ℚ) / og300.grid_resolution_⌋).toNat % 256) :=
  ⟨rfl, by norm_num [og300], getCell_floor_mod_256 og300 0 0 0 300 rfl (by norm_num [og300])⟩

/-- C8: when the metric distance divided by the resolution is 256 or
greater, `getCell` returns the floored quotient reduced modulo 256 — the
quantized distance wraps around rather than being clamped, and in
particular differs from the unreduced quotient. -/
theorem getCell_wraps_mod_256 (og : OccupancyGrid) (x y z : Int) (d : ℚ)
    (hd : og.getDistance x y z = some d) (hq : 256 ≤ d / og.grid_resolution_) :
    og.getCell x y z = some ((⌊d / og.grid_resolution_⌋).toNat % 256) ∧
    og.getCell x y z ≠ some ((⌊d / og.grid_resolution_⌋).toNat) := by
  have h0 : (0 : ℚ) ≤ d / og.grid_resolution_ := le_trans (by norm_num) hq
  have heq : og.getCell x y z = some ((⌊d / og.grid_resolution_⌋).toNat % 256) := by
    rw [getCell_eq_toUChar og x y z d hd, toUChar_of_nonneg _ h0]
  refine ⟨heq, ?_⟩
  have hfl : (256 : ℤ) ≤ ⌊d / og.grid_resolution_⌋ := Int.le_floor.mpr (by exact_mod_cast hq)
  have hnat : 256 ≤ (⌊d / og.grid_resolution_⌋).toNat := by omega
  have hlt : (⌊d / og.grid_resolution_⌋).toNat % 256 < 256 := Nat.mod_lt _ (by norm_num)
  intro hcon
  rw [heq] at hcon
  have := Option.some.inj hcon
  omega

/-- C8 witness: distance 300 m at resolution 1 m gives quotient 300 ≥ 256
and a wrapped bucket value. -/
theorem getCell_wraps_mod_256_witness :
    og300.getDistance 1 0 0 = some 300 ∧ (256 : ℚ) ≤ (300 : ℚ) / og300.grid_resolution_ ∧
    (og300.getCell 1 0 0 = some ((⌊(300 : ℚ) / og300.grid_resolution_⌋).toNat % 256) ∧
     og300.getCell 1 0 0 ≠ some ((⌊(300 : ℚ) / og300.grid_resolution_⌋).toNat)) :=
  ⟨rfl, by norm_num [og300], getCell_wraps_mod_256 og300 1 0 0 300 rfl (by norm_num [og300])⟩

/-- Helper: a lower bound on the propagated minimum holds when it bounds
the radius and every per-obstacle term. -/
theorem le_foldr_min_dist (res maxd : ℚ) (c : Cell3) (l : List Cell3) (m : ℚ)
    (hmax : m ≤ maxd) (h : ∀ o ∈ l, m ≤ res * (VoxelField.cellDist c o : ℚ)) :
    m ≤ l.foldr (fun o acc => min (res * (VoxelField.cellDist c o : ℚ)) acc) maxd := by
  induction l with
  | nil => exact hmax
  | cons a as ih =>
    exact le_min (h a (List.mem_cons_self a as))
      (ih fun o ho => h o (List.mem_cons_of_mem _ ho))

/-- Helper: the propagated minimum is at most the term of any occupied
cell in the list. -/
theorem foldr_min_dist_le (res maxd : ℚ) (c : Cell3) (l : List Cell3) (o : Cell3)
    (ho : o ∈ l) :
    l.foldr (fun o acc => min (res * (VoxelField.cellDist c o : ℚ)) acc) maxd ≤
      res * (VoxelField.cellDist c o : ℚ) := by
  induction l with
  | nil => cases ho
  | cons a as ih =>
    rcases List.mem_cons.mp ho with h | h
    · subst h; exact min_le_left _ _
    · exact le_trans (min_le_right _ _) (ih h)

/-- Helper: a cell is at chessboard distance zero from itself. -/
theorem cellDist_self (c : Cell3) : VoxelField.cellDist c c = 0 := by
  simp [VoxelField.cellDist]

/-- Helper: distinct cells are at chessboard distance at least one. -/
theorem cellDist_pos_of_ne (a b : Cell3) (h : a ≠ b) : 1 ≤ VoxelField.cellDist a b := by
  rcases Nat.eq_zero_or_pos (VoxelField.cellDist a b) with h0 | h1
  · exfalso
    apply h
    obtain ⟨a1, a2, a3⟩ := a
    obtain ⟨b1, b2, b3⟩ := b
    simp only [VoxelField.cellDist, Nat.max_eq_zero_iff, Int.natAbs_eq_zero,
      sub_eq_zero] at h0
    obtain ⟨⟨e1, e2⟩, e3⟩ := h0
    subst e1; subst e2; subst e3; rfl
  · exact h1

/-- C1: after any `propagate()` call on a grid satisfying the spec's
invariants (positive resolution, propagation radius at least the
resolution), an in-bounds cell's stored distance is zero exactly when the
cell is occupied. -/
theorem propagate_distance_zero_iff_occupied (vf : VoxelField) (x y z : Int)
    (hres : 0 < vf.resolution) (hprop : vf.resolution ≤ vf.max_dist)
    (hin : vf.inBoundsCells x y z = true) :
    (vf.propagate.getDistanceFromCell x y z = some 0 ↔
     vf.propagate.getOccupancy x y z = some true) := by
  have hin' : vf.propagate.inBoundsCells x y z = true := hin
  rw [VoxelField.getDistanceFromCell, VoxelField.getOccupancy, if_pos hin', if_pos hin']
  simp only [Option.some.injEq, decide_eq_true_eq]
  show vf.computedDist (x, y, z) = 0 ↔ (x, y, z) ∈ vf.occupied
  rw [VoxelField.computedDist]
  constructor
  · intro h0
    by_contra hmem
    have hge : vf.resolution ≤
        vf.occupied.foldr
          (fun o acc => min (vf.resolution * (VoxelField.cellDist (x, y, z) o : ℚ)) acc)
          vf.max_dist := by
      refine le_foldr_min_dist _ _ _ _ _ hprop fun o ho => ?_
      have hne : (x, y, z) ≠ o := fun he => hmem (he ▸ ho)
      have h1 : (1 : ℚ) ≤ (VoxelField.cellDist (x, y, z) o : ℚ) := by
        exact_mod_cast cellDist_pos_of_ne _ _ hne
      exact le_mul_of_one_le_right (le_of_lt hres) h1
    rw [h0] at hge
    linarith
  · intro hmem
    have hle := foldr_min_dist_le vf.resolution vf.max_dist (x, y, z) vf.occupied _ hmem
    rw [cellDist_self] at hle
    simp only [Nat.cast_zero, mul_zero] at hle
    have hge0 : (0 : ℚ) ≤
        vf.occupied.foldr
          (fun o acc => min (vf.resolution * (VoxelField.cellDist (x, y, z) o : ℚ)) acc)
          vf.max_dist := by
      refine le_foldr_min_dist _ _ _ _ _ (by linarith) fun o ho => ?_
      exact mul_nonneg (le_of_lt hres) (Nat.cast_nonneg _)
    linarith

/-- C1 witness: the 2×1×1 grid with resolution 1 m, radius 2 m and
occupied cell (0,0,0), after propagation. -/
theorem propagate_distance_zero_iff_occupied_witness :
    0 < vfObs.resolution ∧ vfObs.resolution ≤ vfObs.max_dist ∧
    vfObs.inBoundsCells 0 0 0 = true ∧
    (vfObs.propagate.getDistanceFromCell 0 0 0 = some 0 ↔
     vfObs.propagate.getOccupancy 0 0 0 = some true) :=
  ⟨by norm_num [vfObs], by norm_num [vfObs], by decide,
   propagate_distance_zero_iff_occupied vfObs 0 0 0
     (by norm_num [vfObs]) (by norm_num [vfObs]) (by decide)⟩

/-- Helper: the record loop returns exactly one id and one record per
declared object, whatever the stream holds. -/
theorem readRecords_lengths (n : Nat) :
    ∀ (f : CFile) (s : String) (ids : List String) (objs : List (List ℚ)),
      (readRecords n f s ids objs).1.length = ids.length + n ∧
      (readRecords n f s ids objs).2.length = objs.length + n := by
  induction n with
  | zero => intro f s ids objs; simp [readRecords]
  | succ n ih =>
    intro f s ids objs
    simp only [readRecords]
    constructor
    · rw [(ih _ _ _ _).1]
      simp only [List.length_append, List.length_cons, List.length_nil]
      omega
    · rw [(ih _ _ _ _).2]
      simp only [List.length_append, List.length_cons, List.length_nil]
      omega

/-- Helper: with matching list lengths, getCollisionCubes builds one cube
per record. -/
theorem getCollisionCubes_length (objects : List (List ℚ)) (ids : List String)
    (frame_id : String) (h : ids.length = objects.length) :
    (getCollisionCubes objects ids frame_id).length = objects.length := by
  simp [getCollisionCubes, h]

/-- C6: the loader never aborts on malformed obstacle records — every
declared record yields exactly one collision object (first conjunct, for
any stream whose declared count is non-negative), and a record whose six
numeric fields are unreadable is zero-filled while the following record is
still parsed in full (second conjunct, on a concrete two-record file whose
first record's fields are all non-numeric). -/
theorem loader_zero_fills_malformed_and_continues :
    (∀ (f : CFile) (sTemp0 frame_id : String), 0 ≤ declaredCount f sTemp0 →
      (getCollisionObjects (some f) sTemp0 frame_id).map List.length =
        some (declaredCount f sTemp0).toNat) ∧
    getCollisionObjects (some badFile) "" "map" =
      some [⟨"obj1", "map", 0, 0, 0, 0, 0, 0⟩,
            ⟨"obj2", "map", 1, 2, 3, 9 / 2, 5, 60⟩] := by
  constructor
  · intro f s0 frame h
    have h' : ¬ atoi (fscanfStr f s0).2.1 < 0 := not_lt.mpr h
    simp only [getCollisionObjects, if_neg h', Option.map_some']
    obtain ⟨h1, h2⟩ := readRecords_lengths (atoi (fscanfStr f s0).2.1).toNat
      (fscanfStr f s0).1 (fscanfStr f s0).2.1 [] []
    rw [getCollisionCubes_length _ _ _ (h1.trans h2.symm), h2]
    simp only [List.length_nil, Nat.zero_add, declaredCount]
  · simp [getCollisionObjects, badFile, mkCFile, fscanfStr, isSpaceChar, atoi, atof,
      signVal, digitsVal, fracVal, isDigitChar, readRecords, readFields,
      getCollisionCubes, getCollisionCube, String.length]
    norm_num
